import Mathlib

/-!
Verification of the messenger authentication service (refresh-session
lifecycle, token rotation, registration and login) against its
natural-language specification.

The Lean definitions below are a shallow embedding of the Python source:

* `app/models/refresh_session.py`  →  `RefreshSession`
* `app/models/user.py`             →  `User`
* `app/repositories/refresh_session.py` → namespace `RefreshSessionRepository`
* `app/repositories/user.py`       →  namespace `UserRepository`
* `app/services/auth.py`           →  `register_user`, `login_user`,
  `validate_refresh_session`, `refresh_tokens`, `logout_user_idempotent`
* `app/services/errors.py`         →  `AuthError`, `errorMessage`, `errorReason`
* `app/routes/auth.py` (login handler) → `login_route`
* `app/core/security.py`           →  `verify_password` (over a model of the
  argon2 library), `Crypto` (deterministic token hashing and JWT minting,
  treated as the external Credential Verifier / Token Issuer capabilities)

Timestamps are modelled as `Nat`, UUIDs as `Nat`, the database tables as
Lean lists of rows, and SQL statements as the corresponding list operations.
-/

namespace Messenger

/-- Row of the `refresh_sessions` table (`app/models/refresh_session.py`).
`id` is the primary key; `revoked_at` is nullable.  The `created_at` column
is never read by any query in the repository, so it is omitted. -/
structure RefreshSession where
  id : Nat
  user_id : Nat
  refresh_token_hash : String
  expires_at : Nat
  revoked_at : Option Nat
  deriving Repr, DecidableEq

/-- The `refresh_sessions` table: a list of rows, insertion ordered. -/
abbrev SessionStore := List RefreshSession

/-- Spec §3: a RefreshSession is active iff revoked_at IS NULL and
expires_at > now. -/
def isActiveAt (now : Nat) (s : RefreshSession) : Bool :=
  s.revoked_at == none && decide (now < s.expires_at)

namespace RefreshSessionRepository

/-- SELECT by primary key (`RefreshSessionRepository.get_by_id`). -/
def get_by_id (db : SessionStore) (session_id : Nat) : Option RefreshSession :=
  db.find? (fun s => s.id == session_id)

/-- SELECT ... WHERE id = :id AND revoked_at IS NULL
(`RefreshSessionRepository.get_active_by_id`).  The SQL in the source has
no `expires_at` clause. -/
def get_active_by_id (db : SessionStore) (session_id : Nat) : Option RefreshSession :=
  db.find? (fun s => s.id == session_id && s.revoked_at == none)

/-- SELECT ... WHERE refresh_token_hash = :h AND revoked_at IS NULL AND
expires_at > now() (`RefreshSessionRepository.get_active_by_hash`). -/
def get_active_by_hash (db : SessionStore) (now : Nat) (token_hash : String) :
    Option RefreshSession :=
  db.find? (fun s =>
    s.refresh_token_hash == token_hash && s.revoked_at == none &&
      decide (now < s.expires_at))

/-- Effect of the UPDATE in `RefreshSessionRepository.revoke` on one row:
rows matching `id = :id AND revoked_at IS NULL` get `revoked_at = now()`,
all other rows are untouched. -/
def revokeRow (now session_id : Nat) (s : RefreshSession) : RefreshSession :=
  if s.id == session_id && s.revoked_at == none then
    { s with revoked_at := some now }
  else s

/-- UPDATE refresh_sessions SET revoked_at = now() WHERE id = :id AND
revoked_at IS NULL (`RefreshSessionRepository.revoke`).  Returns the new
table together with `rowcount > 0`, i.e. whether any row matched the
conditional predicate. -/
def revoke (db : SessionStore) (now session_id : Nat) : SessionStore × Bool :=
  (db.map (revokeRow now session_id),
   db.any (fun s => s.id == session_id && s.revoked_at == none))

/-- INSERT of a new refresh-session row (`RefreshSessionRepository.create`).
`id` is the primary key, so inserting a duplicate id raises IntegrityError,
modelled as `Except.error`. -/
def create (db : SessionStore) (s : RefreshSession) : Except Unit SessionStore :=
  if db.any (fun r => r.id == s.id) then .error () else .ok (db ++ [s])

end RefreshSessionRepository

/-- Typed service-layer failures (`app/services/errors.py`). -/
inductive AuthError where
  | usernameContainsWhitespace
  | emailAlreadyExists
  | usernameAlreadyExists
  | invalidUsername
  | invalidPassword
  | invalidRefreshToken
  | refreshSessionNotFound
  | refreshSessionMismatch
  deriving Repr, DecidableEq

/-- Human-readable message passed to each exception constructor in
`app/services/errors.py`. -/
def errorMessage : AuthError → String
  | .usernameContainsWhitespace => "Username contains whitespace"
  | .emailAlreadyExists => "Email already exists"
  | .usernameAlreadyExists => "Username already exists"
  | .invalidUsername => "Invalid credentials"
  | .invalidPassword => "Invalid credentials"
  | .invalidRefreshToken => "Invalid refresh token"
  | .refreshSessionNotFound => "Refresh session not found"
  | .refreshSessionMismatch => "Refresh session mismatch"

/-- Machine-readable reason code (the `reason` class attribute in
`app/services/errors.py`). -/
def errorReason : AuthError → String
  | .usernameContainsWhitespace => "username_contains_whitespace"
  | .emailAlreadyExists => "email_already_exists"
  | .usernameAlreadyExists => "username_already_exists"
  | .invalidUsername => "invalid_username"
  | .invalidPassword => "invalid_password"
  | .invalidRefreshToken => "invalid_refresh_token"
  | .refreshSessionNotFound => "refresh_session_not_found"
  | .refreshSessionMismatch => "refresh_session_mismatch"

/-- Exceptions a service operation can let escape: one of the typed
service errors, or an uncaught database IntegrityError. -/
inductive PyError where
  | service (e : AuthError)
  | integrity
  deriving Repr, DecidableEq

/-- External collaborator capabilities (spec §6): the deterministic
refresh-token digest (`hash_refresh_token`, sha256 in
`app/core/security.py`) and the authx token issuer
(`auth.create_access_token` / `auth.create_refresh_token`).  All three are
deterministic functions of their arguments. -/
structure Crypto where
  hashToken : String → String
  accessToken : String → String
  refreshToken : String → String → String

/-- Decoded refresh-JWT payload; the service reads only `payload.sub`
(a string user id). -/
structure TokenPayload where
  sub : String
  deriving Repr, DecidableEq

/-- The `RefreshTokenRaw` type alias in `app/services/auth.py`: either a
plain string or an object carrying a `token` attribute. -/
inductive RefreshTokenRaw where
  | str (s : String)
  | obj (token : String)
  deriving Repr, DecidableEq

/-- Python truthiness of a `RefreshTokenRaw` value, as used by the guard
`if not refresh_token_raw` in `_validate_refresh_session`: an empty string
is falsy, an object is always truthy. -/
def refreshTokenFalsy : RefreshTokenRaw → Bool
  | .str s => s.isEmpty
  | .obj _ => false

/-- The `_normalize_refresh_token` helper in `app/services/auth.py`. -/
def normalize_refresh_token : RefreshTokenRaw → String
  | .str s => s
  | .obj token => token

/-- The `_validate_refresh_session` helper in `app/services/auth.py`:
reject an absent token, look up an active session by the token's hash,
and check the JWT subject against the session owner. -/
def validate_refresh_session (C : Crypto) (db : SessionStore) (now : Nat)
    (refresh_token_raw : RefreshTokenRaw) (payload : TokenPayload) :
    Except AuthError RefreshSession :=
  if refreshTokenFalsy refresh_token_raw then .error .invalidRefreshToken
  else
    match RefreshSessionRepository.get_active_by_hash db now
        (C.hashToken (normalize_refresh_token refresh_token_raw)) with
    | none => .error .refreshSessionNotFound
    | some session =>
      if payload.sub ≠ toString session.user_id then .error .refreshSessionMismatch
      else .ok session

/-- The new session row built by `refresh_tokens` for the rotated token:
fresh id, same owner, hash of the newly minted refresh token, expiry
`now + lifetime`, not revoked. -/
def rotatedSession (C : Crypto) (now : Nat) (old_session : RefreshSession)
    (new_session_id lifetime : Nat) : RefreshSession :=
  { id := new_session_id, user_id := old_session.user_id,
    refresh_token_hash :=
      C.hashToken (C.refreshToken (toString old_session.user_id) (toString new_session_id)),
    expires_at := now + lifetime, revoked_at := none }

/-- Body of `refresh_tokens` after `_validate_refresh_session` has returned
`old_session`: revoke the old session (the boolean result is discarded by
the source), mint the new tokens, and insert the new session row.
`new_session_id` stands for the fresh `uuid.uuid4()` and `lifetime` for the
configured refresh-token lifetime. -/
def rotate_session (C : Crypto) (db : SessionStore) (now : Nat)
    (old_session : RefreshSession) (new_session_id lifetime : Nat) :
    SessionStore × Except PyError (String × String) :=
  match RefreshSessionRepository.create
      (RefreshSessionRepository.revoke db now old_session.id).1
      (rotatedSession C now old_session new_session_id lifetime) with
  | .error _ => ((RefreshSessionRepository.revoke db now old_session.id).1, .error .integrity)
  | .ok db2 =>
    (db2, .ok (C.accessToken (toString old_session.user_id),
               C.refreshToken (toString old_session.user_id) (toString new_session_id)))

/-- The `refresh_tokens` service operation (`app/services/auth.py`):
validate, then rotate.  Returns the resulting table state together with
either the new `(access_token, refresh_token)` pair or the raised error. -/
def refresh_tokens (C : Crypto) (db : SessionStore) (now : Nat)
    (refresh_token_raw : RefreshTokenRaw) (payload : TokenPayload)
    (new_session_id lifetime : Nat) :
    SessionStore × Except PyError (String × String) :=
  match validate_refresh_session C db now refresh_token_raw payload with
  | .error e => (db, .error (.service e))
  | .ok old_session => rotate_session C db now old_session new_session_id lifetime

/-- The `logout_user_idempotent` service operation: look up the active
session for the token's hash and revoke it if present; never fails. -/
def logout_user_idempotent (C : Crypto) (db : SessionStore) (now : Nat)
    (refresh_token_raw : RefreshTokenRaw) : SessionStore :=
  match RefreshSessionRepository.get_active_by_hash db now
      (C.hashToken (normalize_refresh_token refresh_token_raw)) with
  | none => db
  | some session => (RefreshSessionRepository.revoke db now session.id).1

/-- Row of the `users` table (`app/models/user.py`); `created_at` is never
read by the service layer and is omitted. -/
structure User where
  id : Nat
  email : String
  username : String
  password_hash : String
  deriving Repr, DecidableEq

/-- The `users` table. -/
abbrev UserStore := List User

namespace UserRepository

/-- SELECT ... WHERE email = :email, exact case-sensitive match. -/
def get_by_email (db : UserStore) (email : String) : Option User :=
  db.find? (fun u => u.email == email)

/-- SELECT ... WHERE username = :username, exact case-sensitive match. -/
def get_by_username (db : UserStore) (username : String) : Option User :=
  db.find? (fun u => u.username == username)

/-- Named uniqueness constraints on the `users` table
(`app/models/user.py`). -/
inductive ConstraintViolation where
  | uq_users_email
  | uq_users_username
  deriving Repr, DecidableEq

/-- INSERT of a new user (`UserRepository.create`): raises IntegrityError
carrying the violated constraint name when the email or username is
already present. -/
def create (db : UserStore) (u : User) : Except ConstraintViolation UserStore :=
  if db.any (fun r => r.email == u.email) then .error .uq_users_email
  else if db.any (fun r => r.username == u.username) then .error .uq_users_username
  else .ok (db ++ [u])

end UserRepository

/-- Store accesses performed by a service operation, recorded in call
order so that statements about "before any lookup" can be made. -/
inductive StoreEvent where
  | lookupEmail (email : String)
  | lookupUsername (username : String)
  | insertUser (u : User)
  deriving Repr, DecidableEq

/-- Payload of a registration request after boundary validation
(`RegisterRequest` in `app/schemas/auth.py`). -/
structure RegisterRequest where
  email : String
  username : String
  password : String
  deriving Repr, DecidableEq

/-- Python `" " in username`: the username contains the space character.
Only U+0020 is tested by the source; no other whitespace is looked for. -/
def containsSpace (u : String) : Bool :=
  u.toList.any (fun c => c == ' ')

/-- The `register_user` service operation (`app/services/auth.py`).
`new_id` stands for the generated user id and `password_hash` for the
argon2 digest computed by `hash_password` (a fresh random salt per call,
so it enters the model as an input).  Returns the resulting `users` table,
the ordered trace of store accesses, and the created user or the raised
error. -/
def register_user (db : UserStore) (payload : RegisterRequest)
    (new_id : Nat) (password_hash : String) :
    UserStore × List StoreEvent × Except AuthError User :=
  if containsSpace payload.username then
    (db, [], .error .usernameContainsWhitespace)
  else
    match UserRepository.get_by_email db payload.email with
    | some _ => (db, [.lookupEmail payload.email], .error .emailAlreadyExists)
    | none =>
      match UserRepository.get_by_username db payload.username with
      | some _ =>
        (db, [.lookupEmail payload.email, .lookupUsername payload.username],
         .error .usernameAlreadyExists)
      | none =>
        match UserRepository.create db
            { id := new_id, email := payload.email, username := payload.username,
              password_hash := password_hash } with
        | .ok db2 =>
          (db2,
           [.lookupEmail payload.email, .lookupUsername payload.username,
            .insertUser { id := new_id, email := payload.email,
                          username := payload.username,
                          password_hash := password_hash }],
           .ok { id := new_id, email := payload.email,
                 username := payload.username, password_hash := password_hash })
        | .error .uq_users_email =>
          (db,
           [.lookupEmail payload.email, .lookupUsername payload.username,
            .insertUser { id := new_id, email := payload.email,
                          username := payload.username,
                          password_hash := password_hash }],
           .error .emailAlreadyExists)
        | .error .uq_users_username =>
          (db,
           [.lookupEmail payload.email, .lookupUsername payload.username,
            .insertUser { id := new_id, email := payload.email,
                          username := payload.username,
                          password_hash := password_hash }],
           .error .usernameAlreadyExists)

/-- Character class `[a-zA-Z0-9._%+-]` of the local part of the email
regex in `login_user`. -/
def isEmailLocalChar (c : Char) : Bool :=
  c.isAlphanum || c == '.' || c == '_' || c == '%' || c == '+' || c == '-'

/-- Character class `[a-zA-Z0-9.-]` of the domain part of the email
regex in `login_user`. -/
def isEmailDomainChar (c : Char) : Bool :=
  c.isAlphanum || c == '.' || c == '-'

/-- Fullmatch of the domain tail of the email regex,
`[a-zA-Z0-9.-]+\.[a-zA-Z]{2,}` : some dot position splits the input into a
non-empty domain-class prefix and an all-alphabetic suffix of length at
least two. -/
def matchesEmailDomain (cs : List Char) : Bool :=
  (List.range cs.length).any (fun p =>
    cs.getD p ' ' == '.' &&
    !(List.take p cs).isEmpty && (List.take p cs).all isEmailDomainChar &&
    decide (2 ≤ (List.drop (p + 1) cs).length) &&
    (List.drop (p + 1) cs).all Char.isAlpha)

/-- re.fullmatch of the email pattern
`^[a-zA-Z0-9._%+-]+@[a-zA-Z0-9.-]+\.[a-zA-Z]{2,}$` used by `login_user`.
Neither character class contains `@`, so the local part is exactly the
segment before the first `@`. -/
def matchesEmailPattern (s : String) : Bool :=
  let cs := s.toList
  let local_part := cs.takeWhile (fun c => c != '@')
  match cs.dropWhile (fun c => c != '@') with
  | [] => false
  | _ :: domain =>
    !local_part.isEmpty && local_part.all isEmailLocalChar &&
      matchesEmailDomain domain

/-- re.fullmatch of the username pattern `^[a-zA-Z0-9_]{3,20}$` used by
`login_user`. -/
def matchesLoginPattern (s : String) : Bool :=
  decide (3 ≤ s.toList.length) && decide (s.toList.length ≤ 20) &&
    s.toList.all (fun c => c.isAlphanum || c == '_')

/-- Credential Verifier capability used by login: `verify_password` over
well-formed stored digests, a boolean predicate on (plaintext, digest). -/
structure PasswordVerifier where
  verify : String → String → Bool

/-- Continuation of `login_user` after a user row was found: check the
password, mint the token pair, insert the new refresh-session row.
`session_id` stands for the fresh `uuid.uuid4()` and `lifetime` for the
configured refresh lifetime. -/
def login_issue (V : PasswordVerifier) (C : Crypto) (sessions : SessionStore)
    (now : Nat) (user : User) (password : String) (session_id lifetime : Nat) :
    SessionStore × Except PyError (String × String) :=
  if !V.verify password user.password_hash then
    (sessions, .error (.service .invalidPassword))
  else
    match RefreshSessionRepository.create sessions
        { id := session_id, user_id := user.id,
          refresh_token_hash :=
            C.hashToken (C.refreshToken (toString user.id) (toString session_id)),
          expires_at := now + lifetime, revoked_at := none } with
    | .error _ => (sessions, .error .integrity)
    | .ok db2 =>
      (db2, .ok (C.accessToken (toString user.id),
                 C.refreshToken (toString user.id) (toString session_id)))

/-- The `login_user` service operation (`app/services/auth.py`): classify
the login string with the two regexes, look the user up accordingly,
verify the password and create a session.  Also returns the ordered trace
of user-store lookups that were performed. -/
def login_user (V : PasswordVerifier) (C : Crypto) (users : UserStore)
    (sessions : SessionStore) (now : Nat) (login password : String)
    (session_id lifetime : Nat) :
    List StoreEvent × SessionStore × Except PyError (String × String) :=
  if matchesEmailPattern login then
    match UserRepository.get_by_email users login with
    | none => ([.lookupEmail login], sessions, .error (.service .invalidUsername))
    | some user =>
      ([.lookupEmail login],
       (login_issue V C sessions now user password session_id lifetime).1,
       (login_issue V C sessions now user password session_id lifetime).2)
  else if matchesLoginPattern login then
    match UserRepository.get_by_username users login with
    | none => ([.lookupUsername login], sessions, .error (.service .invalidUsername))
    | some user =>
      ([.lookupUsername login],
       (login_issue V C sessions now user password session_id lifetime).1,
       (login_issue V C sessions now user password session_id lifetime).2)
  else
    ([], sessions, .error (.service .invalidUsername))

/-- Transport-level outcome of the login endpoint. -/
inductive LoginHttpResponse where
  | ok (access_token refresh_cookie : String)
  | unauthorized (detail : String)
  | serverError
  deriving Repr, DecidableEq

/-- Boundary mapping of the login handler in `app/routes/auth.py`: both
`InvalidUsernameError` and `InvalidPasswordError` are caught by the same
except-clause and mapped to HTTP 401 with detail "Invalid credentials";
any other exception propagates to a generic server error. -/
def login_route : Except PyError (String × String) → LoginHttpResponse
  | .ok (access_token, refresh_token) => .ok access_token refresh_token
  | .error (.service .invalidUsername) => .unauthorized "Invalid credentials"
  | .error (.service .invalidPassword) => .unauthorized "Invalid credentials"
  | .error _ => .serverError

/-- Outcome of `argon2.PasswordHasher.verify` on a (password, digest)
pair: the digest parses and the password matches; the digest parses and
the password does not match; or the digest is malformed. -/
inductive ArgonVerifyOutcome where
  | valid
  | mismatch
  | invalidHash
  deriving Repr, DecidableEq

/-- Exception classes of argon2-cffi relevant to `verify_password`.
`VerifyMismatchError` subclasses `VerificationError`; `InvalidHashError`
subclasses `ValueError` and is NOT a `VerificationError`. -/
inductive ArgonException where
  | verifyMismatchError
  | verificationError
  | invalidHashError
  deriving Repr, DecidableEq

/-- Whether `except VerificationError` catches the exception: it catches
the class itself and its subclass `VerifyMismatchError`, but not
`InvalidHashError`. -/
def isVerificationError : ArgonException → Bool
  | .verifyMismatchError => true
  | .verificationError => true
  | .invalidHashError => false

/-- Behaviour of `argon2.PasswordHasher.verify`: returns True on a match,
raises `VerifyMismatchError` on a well-formed digest that does not match,
and raises `InvalidHashError` on a malformed digest. -/
def ph_verify : ArgonVerifyOutcome → Except ArgonException Bool
  | .valid => .ok true
  | .mismatch => .error .verifyMismatchError
  | .invalidHash => .error .invalidHashError

/-- The `verify_password` wrapper in `app/core/security.py`: call
`ph.verify` and turn a caught `VerificationError` into False; every other
exception propagates. -/
def verify_password (outcome : ArgonVerifyOutcome) : Except ArgonException Bool :=
  match ph_verify outcome with
  | .ok b => .ok b
  | .error e => if isVerificationError e then .ok false else .error e

/-- Username shape accepted end-to-end by registration: the pydantic
field constraints of `RegisterRequest.username` (3 to 64 characters,
`app/schemas/auth.py`) together with the service-level space check of
`register_user`. -/
def registerUsernameAccepted (u : String) : Bool :=
  decide (3 ≤ u.toList.length) && decide (u.toList.length ≤ 64) && !containsSpace u

/-! ### State-machine view of the session store

Every operation of the system touches the `refresh_sessions` table only
through `RefreshSessionRepository`: it may apply the conditional-revoke
UPDATE and it may INSERT a row whose primary key is not yet present.
`Op` enumerates the system operations, `step` is their effect on the
table, and `StoreStep` is the common shape of a single effect, from which
the monotonicity invariants follow. -/

/-- One invocation of a system operation, with all of its inputs. -/
inductive Op where
  | opCreate (s : RefreshSession)
  | opRevoke (now session_id : Nat)
  | opLogin (V : PasswordVerifier) (C : Crypto) (users : UserStore) (now : Nat)
      (login password : String) (session_id lifetime : Nat)
  | opRefresh (C : Crypto) (now : Nat) (raw : RefreshTokenRaw)
      (payload : TokenPayload) (new_session_id lifetime : Nat)
  | opLogout (C : Crypto) (now : Nat) (raw : RefreshTokenRaw)

/-- Effect of an operation on the `refresh_sessions` table.  A raised
IntegrityError aborts the failing INSERT but keeps the already-committed
effects, exactly as the per-call commits in the repository do. -/
def step (db : SessionStore) : Op → SessionStore
  | .opCreate s =>
      match RefreshSessionRepository.create db s with
      | .ok db2 => db2
      | .error _ => db
  | .opRevoke now session_id => (RefreshSessionRepository.revoke db now session_id).1
  | .opLogin V C users now login password session_id lifetime =>
      (login_user V C users db now login password session_id lifetime).2.1
  | .opRefresh C now raw payload new_session_id lifetime =>
      (refresh_tokens C db now raw payload new_session_id lifetime).1
  | .opLogout C now raw => logout_user_idempotent C db now raw

/-- Shape of any single-operation effect on the session table: possibly a
conditional-revoke pass over the rows, then possibly an insertion of one
row whose id is fresh. -/
def StoreStep (db db2 : SessionStore) : Prop :=
  ∃ db1 : SessionStore,
    (db1 = db ∨ ∃ n i, db1 = db.map (RefreshSessionRepository.revokeRow n i)) ∧
    (db2 = db1 ∨ ∃ s, (∀ r ∈ db1, r.id ≠ s.id) ∧ db2 = db1 ++ [s])

/-- Invariant: a row with id `i` exists and every row with id `i` has
`revoked_at = some t`.  Once a session is revoked this holds and is kept
by every later operation. -/
def RevokedForever (i t : Nat) (db : SessionStore) : Prop :=
  (∃ s ∈ db, s.id = i) ∧ ∀ s ∈ db, s.id = i → s.revoked_at = some t

/-- Concrete deterministic Crypto instance used to exercise the theorems
on closed inputs. -/
def demoCrypto : Crypto :=
  { hashToken := fun t => "#" ++ t,
    accessToken := fun u => "AT:" ++ u,
    refreshToken := fun u sid => "RT:" ++ u ++ ":" ++ sid }

/-- Concrete password verifier used to exercise the theorems on closed
inputs: the digest equals the plaintext. -/
def demoVerifier : PasswordVerifier :=
  { verify := fun p h => p == h }

/-- Concrete session row used to exercise the theorems on closed inputs. -/
def demoSession : RefreshSession :=
  { id := 1, user_id := 7, refresh_token_hash := "#tok", expires_at := 10,
    revoked_at := none }

theorem revokeRow_id (now i : Nat) (s : RefreshSession) :
    (RefreshSessionRepository.revokeRow now i s).id = s.id := by
  unfold RefreshSessionRepository.revokeRow
  split <;> rfl

theorem revokeRow_of_some {t : Nat} (now i : Nat) {s : RefreshSession}
    (h : s.revoked_at = some t) : RefreshSessionRepository.revokeRow now i s = s := by
  unfold RefreshSessionRepository.revokeRow
  simp [h]

theorem revokeRow_revoked_ne_none (now i : Nat) {s : RefreshSession}
    (h : s.revoked_at ≠ none ∨ s.id = i) :
    (RefreshSessionRepository.revokeRow now i s).revoked_at ≠ none := by
  unfold RefreshSessionRepository.revokeRow
  split <;> rename_i hcond
  · simp
  · rcases h with h | h
    · exact h
    · cases hrv : s.revoked_at with
      | some t => simp [hrv]
      | none => simp [h, hrv] at hcond

theorem storeStep_refl (db : SessionStore) : StoreStep db db :=
  ⟨db, Or.inl rfl, Or.inl rfl⟩

theorem storeStep_revoke (db : SessionStore) (now i : Nat) :
    StoreStep db (RefreshSessionRepository.revoke db now i).1 :=
  ⟨db.map (RefreshSessionRepository.revokeRow now i), Or.inr ⟨now, i, rfl⟩, Or.inl rfl⟩

theorem create_ok_elim {db db2 : SessionStore} {s : RefreshSession}
    (h : RefreshSessionRepository.create db s = .ok db2) :
    (∀ r ∈ db, r.id ≠ s.id) ∧ db2 = db ++ [s] := by
  unfold RefreshSessionRepository.create at h
  by_cases hany : db.any (fun r => r.id == s.id)
  · rw [if_pos hany] at h
    exact absurd h (by simp)
  · rw [if_neg hany] at h
    refine ⟨?_, by injection h with h2; exact h2.symm⟩
    intro r hr he
    exact hany (by simp [List.any_eq_true]; exact ⟨r, hr, he⟩)

theorem storeStep_create (db : SessionStore) (s : RefreshSession) :
    StoreStep db (match RefreshSessionRepository.create db s with
      | .ok db2 => db2
      | .error _ => db) := by
  cases hc : RefreshSessionRepository.create db s with
  | error e => exact storeStep_refl db
  | ok db2 =>
    obtain ⟨hfresh, rfl⟩ := create_ok_elim hc
    exact ⟨db, Or.inl rfl, Or.inr ⟨s, hfresh, rfl⟩⟩

theorem storeStep_rotate (C : Crypto) (db : SessionStore) (now : Nat)
    (old_session : RefreshSession) (new_session_id lifetime : Nat) :
    StoreStep db (rotate_session C db now old_session new_session_id lifetime).1 := by
  unfold rotate_session
  cases hc : RefreshSessionRepository.create
      (RefreshSessionRepository.revoke db now old_session.id).1
      (rotatedSession C now old_session new_session_id lifetime) with
  | error e =>
    exact ⟨_, Or.inr ⟨now, old_session.id, rfl⟩, Or.inl rfl⟩
  | ok db2 =>
    obtain ⟨hfresh, rfl⟩ := create_ok_elim hc
    exact ⟨_, Or.inr ⟨now, old_session.id, rfl⟩, Or.inr ⟨_, hfresh, rfl⟩⟩

theorem storeStep_login_issue (V : PasswordVerifier) (C : Crypto)
    (sessions : SessionStore) (now : Nat) (user : User) (password : String)
    (session_id lifetime : Nat) :
    StoreStep sessions (login_issue V C sessions now user password session_id lifetime).1 := by
  unfold login_issue
  by_cases hv : !V.verify password user.password_hash
  · rw [if_pos hv]; exact storeStep_refl sessions
  · rw [if_neg hv]
    cases hc : RefreshSessionRepository.create sessions
        { id := session_id, user_id := user.id,
          refresh_token_hash :=
            C.hashToken (C.refreshToken (toString user.id) (toString session_id)),
          expires_at := now + lifetime, revoked_at := none } with
    | error e => exact storeStep_refl sessions
    | ok db2 =>
      obtain ⟨hfresh, rfl⟩ := create_ok_elim hc
      exact ⟨sessions, Or.inl rfl, Or.inr ⟨_, hfresh, rfl⟩⟩

theorem storeStep_refresh (C : Crypto) (db : SessionStore) (now : Nat)
    (raw : RefreshTokenRaw) (payload : TokenPayload) (new_session_id lifetime : Nat) :
    StoreStep db (refresh_tokens C db now raw payload new_session_id lifetime).1 := by
  unfold refresh_tokens
  cases validate_refresh_session C db now raw payload with
  | error e => exact storeStep_refl db
  | ok old_session => exact storeStep_rotate C db now old_session new_session_id lifetime

theorem storeStep_login (V : PasswordVerifier) (C : Crypto) (users : UserStore)
    (sessions : SessionStore) (now : Nat) (login password : String)
    (session_id lifetime : Nat) :
    StoreStep sessions
      (login_user V C users sessions now login password session_id lifetime).2.1 := by
  unfold login_user
  by_cases he : matchesEmailPattern login
  · rw [if_pos he]
    cases UserRepository.get_by_email users login with
    | none => exact storeStep_refl sessions
    | some user => exact storeStep_login_issue V C sessions now user password session_id lifetime
  · rw [if_neg he]
    by_cases hu : matchesLoginPattern login
    · rw [if_pos hu]
      cases UserRepository.get_by_username users login with
      | none => exact storeStep_refl sessions
      | some user => exact storeStep_login_issue V C sessions now user password session_id lifetime
    · rw [if_neg hu]; exact storeStep_refl sessions

theorem storeStep_logout (C : Crypto) (db : SessionStore) (now : Nat)
    (raw : RefreshTokenRaw) : StoreStep db (logout_user_idempotent C db now raw) := by
  unfold logout_user_idempotent
  cases RefreshSessionRepository.get_active_by_hash db now
      (C.hashToken (normalize_refresh_token raw)) with
  | none => exact storeStep_refl db
  | some session => exact storeStep_revoke db now session.id

/-- Every system operation's effect on the session table has the
`StoreStep` shape. -/
theorem storeStep_step (db : SessionStore) (op : Op) : StoreStep db (step db op) := by
  cases op with
  | opCreate s => exact storeStep_create db s
  | opRevoke now i => exact storeStep_revoke db now i
  | opLogin V C users now l p sid lt => exact storeStep_login V C users db now l p sid lt
  | opRefresh C now raw payload nsid lt => exact storeStep_refresh C db now raw payload nsid lt
  | opLogout C now raw => exact storeStep_logout C db now raw

theorem revokedForever_of_storeStep {i t : Nat} {db db2 : SessionStore}
    (h : RevokedForever i t db) (hs : StoreStep db db2) : RevokedForever i t db2 := by
  obtain ⟨db1, h1, h2⟩ := hs
  have hdb1 : RevokedForever i t db1 := by
    rcases h1 with rfl | ⟨n, j, rfl⟩
    · exact h
    · obtain ⟨⟨s, hs1, hs2⟩, hall⟩ := h
      refine ⟨⟨RefreshSessionRepository.revokeRow n j s, List.mem_map_of_mem _ hs1, by
        rw [revokeRow_id]; exact hs2⟩, ?_⟩
      intro r hr hid
      obtain ⟨r0, hr0, rfl⟩ := List.mem_map.1 hr
      have hid0 : r0.id = i := by rwa [revokeRow_id] at hid
      have := hall r0 hr0 hid0
      rw [revokeRow_of_some n j this]
      exact this
  rcases h2 with rfl | ⟨s, hfresh, rfl⟩
  · exact hdb1
  · obtain ⟨⟨r0, hr0, hr0id⟩, hall⟩ := hdb1
    refine ⟨⟨r0, List.mem_append_left _ hr0, hr0id⟩, ?_⟩
    intro r hr hid
    rcases List.mem_append.1 hr with hr | hr
    · exact hall r hr hid
    · have : r = s := by simpa using hr
      subst this
      exact absurd hid (by rw [← hr0id]; exact fun he => hfresh r0 hr0 (he ▸ rfl))

/-- The invariant is preserved by any sequence of system operations. -/
theorem revokedForever_foldl {i t : Nat} {db : SessionStore}
    (h : RevokedForever i t db) (ops : List Op) :
    RevokedForever i t (ops.foldl step db) := by
  induction ops generalizing db with
  | nil => exact h
  | cons op rest ih =>
    rw [List.foldl_cons]
    exact ih (revokedForever_of_storeStep h (storeStep_step db op))

theorem row_frozen_of_storeStep {db db2 : SessionStore} (hs : StoreStep db db2)
    {j : Nat} (hj : j < db.length) {t : Nat}
    (hrev : (db.get ⟨j, hj⟩).revoked_at = some t) :
    ∃ hj2 : j < db2.length, db2.get ⟨j, hj2⟩ = db.get ⟨j, hj⟩ := by
  obtain ⟨db1, h1, h2⟩ := hs
  have hlen1 : j < db1.length := by
    rcases h1 with rfl | ⟨n, k, rfl⟩
    · exact hj
    · simpa using hj
  have hget1 : db1.get ⟨j, hlen1⟩ = db.get ⟨j, hj⟩ := by
    rcases h1 with rfl | ⟨n, k, rfl⟩
    · rfl
    · simp only [List.get_eq_getElem, List.getElem_map]
      exact revokeRow_of_some n k hrev
  rcases h2 with rfl | ⟨s, _, rfl⟩
  · exact ⟨hlen1, hget1⟩
  · refine ⟨by simp; omega, ?_⟩
    rw [← hget1]
    simp only [List.get_eq_getElem]
    exact List.getElem_append_left hlen1

/-- Positional monotonicity: a row whose `revoked_at` is set is never
modified again by any sequence of system operations. -/
theorem row_frozen_foldl (ops : List Op) {db : SessionStore}
    {j : Nat} (hj : j < db.length) {t : Nat}
    (hrev : (db.get ⟨j, hj⟩).revoked_at = some t) :
    ∃ hj2 : j < (ops.foldl step db).length,
      (ops.foldl step db).get ⟨j, hj2⟩ = db.get ⟨j, hj⟩ := by
  induction ops generalizing db with
  | nil => exact ⟨hj, rfl⟩
  | cons op rest ih =>
    rw [List.foldl_cons]
    obtain ⟨h2, heq⟩ := row_frozen_of_storeStep (storeStep_step db op) hj hrev
    obtain ⟨h3, heq3⟩ := ih h2 (by rw [heq]; exact hrev)
    exact ⟨h3, heq3.trans heq⟩

/-! ### Claim theorems -/

theorem find?_eq_some_of_unique {α : Type} {p : α → Bool} {l : List α} {a : α}
    (ha : a ∈ l) (hpa : p a = true) (huniq : ∀ x ∈ l, p x = true → x = a) :
    l.find? p = some a := by
  induction l with
  | nil => cases ha
  | cons b tl ih =>
    by_cases hb : p b = true
    · have hba : b = a := huniq b (List.mem_cons_self b tl) hb
      rw [List.find?_cons_of_pos _ hb, hba]
    · rw [List.find?_cons_of_neg _ (by simpa using hb)]
      rcases List.mem_cons.1 ha with rfl | ha2
      · exact absurd hpa hb
      · exact ih ha2 fun x hx hpx => huniq x (List.mem_cons_of_mem _ hx) hpx

/-- C2 counterexample: at time 5, an expired (expires_at = 0) but
unrevoked session is NOT active, yet `get_active_by_id` still returns it,
because the query filters only on `revoked_at IS NULL`. -/
theorem get_active_by_id_expiry_cex :
    RefreshSessionRepository.get_active_by_id
        [{ id := 1, user_id := 7, refresh_token_hash := "h", expires_at := 0,
           revoked_at := none }] 1 =
      some { id := 1, user_id := 7, refresh_token_hash := "h", expires_at := 0,
             revoked_at := none }
    ∧ isActiveAt 5
        { id := 1, user_id := 7, refresh_token_hash := "h", expires_at := 0,
          revoked_at := none } = false := by
  decide

/-- C2 (amended): `get_active_by_id(id)` returns the stored session iff
its `revoked_at` is NULL; the query performs NO `expires_at` check, so an
expired-but-unrevoked session is still returned. -/
theorem get_active_by_id_characterization (db : SessionStore) (i : Nat) :
    (∀ s, RefreshSessionRepository.get_active_by_id db i = some s →
      s ∈ db ∧ s.id = i ∧ s.revoked_at = none)
    ∧ ((RefreshSessionRepository.get_active_by_id db i).isSome ↔
        ∃ s ∈ db, s.id = i ∧ s.revoked_at = none)
    ∧ (∀ s ∈ db, s.id = i → s.revoked_at = none →
        (∀ r ∈ db, r.id = i → r = s) →
        RefreshSessionRepository.get_active_by_id db i = some s) := by
  refine ⟨?_, ?_, ?_⟩
  · intro s hs
    have hmem := List.mem_of_find?_eq_some hs
    have hp := List.find?_some hs
    simp only [Bool.and_eq_true, beq_iff_eq] at hp
    exact ⟨hmem, hp.1, hp.2⟩
  · rw [RefreshSessionRepository.get_active_by_id, List.find?_isSome]
    constructor
    · rintro ⟨x, hx, hp⟩
      simp only [Bool.and_eq_true, beq_iff_eq] at hp
      exact ⟨x, hx, hp.1, hp.2⟩
    · rintro ⟨x, hx, h1, h2⟩
      exact ⟨x, hx, by simp [h1, h2]⟩
  · intro s hs hid hrev huniq
    apply find?_eq_some_of_unique hs (by simp [hid, hrev])
    intro x hx hpx
    simp only [Bool.and_eq_true, beq_iff_eq] at hpx
    exact huniq x hx hpx.1

theorem get_active_by_id_characterization_witness :
    RefreshSessionRepository.get_active_by_id [demoSession] 1 = some demoSession :=
  (get_active_by_id_characterization [demoSession] 1).2.2 demoSession
    (by decide) (by decide) (by decide) (by decide)

/-- C3: on a malformed digest, `PasswordHasher.verify` raises
`InvalidHashError`, which is not a subclass of the only exception class
`verify_password` catches (`VerificationError`), so the error propagates
to the caller instead of yielding False.  On well-formed digests the
wrapper does return a boolean and never raises. -/
theorem verify_password_raises_on_malformed_digest :
    verify_password .invalidHash = .error .invalidHashError
    ∧ isVerificationError .invalidHashError = false
    ∧ verify_password .mismatch = .ok false
    ∧ verify_password .valid = .ok true :=
  ⟨rfl, rfl, rfl, rfl⟩

/-- C4 counterexample: the tab character is whitespace and occurs in the
username "ab\tc", yet registration (against an empty store) succeeds
instead of failing with UsernameContainsWhitespace, because the source
only tests `" " in username`. -/
theorem register_whitespace_tab_cex :
    ('\t'.isWhitespace = true)
    ∧ ("ab\tc".toList.contains '\t' = true)
    ∧ (register_user []
        { email := "e@x.com", username := "ab\tc", password := "password123" }
        1 "digest").2.2 =
      .ok { id := 1, email := "e@x.com", username := "ab\tc",
            password_hash := "digest" } :=
  ⟨by decide, by decide, by rfl⟩

/-- C4 (amended): register fails with UsernameContainsWhitespace iff the
username contains the space character U+0020 (other whitespace such as
tab or newline is not rejected), and when it does fail this way no store
lookup or insertion has been performed and the store is unchanged. -/
theorem register_whitespace_space_only (db : UserStore) (payload : RegisterRequest)
    (new_id : Nat) (password_hash : String) :
    ((register_user db payload new_id password_hash).2.2 =
        .error .usernameContainsWhitespace ↔ containsSpace payload.username = true)
    ∧ (containsSpace payload.username = true →
        (register_user db payload new_id password_hash).2.1 = []
        ∧ (register_user db payload new_id password_hash).1 = db) := by
  constructor
  · constructor
    · intro h
      by_cases hs : containsSpace payload.username
      · exact hs
      · exfalso
        unfold register_user at h
        rw [if_neg hs] at h
        split at h
        · simp at h
        · split at h
          · simp at h
          · split at h
            · simp at h
            · simp at h
            · simp at h
    · intro h
      unfold register_user
      rw [if_pos h]
  · intro h
    unfold register_user
    rw [if_pos h]
    exact ⟨rfl, rfl⟩

theorem register_whitespace_space_only_witness :
    (register_user []
      { email := "e@x.com", username := "a b", password := "password123" }
      1 "digest").2.2 = .error .usernameContainsWhitespace :=
  (register_whitespace_space_only []
    { email := "e@x.com", username := "a b", password := "password123" }
    1 "digest").1.mpr (by decide)

/-- C5: revoke is the conditional update "set revoked_at = now where id
matches and revoked_at is NULL".  Its boolean result is true exactly when
some row matched (a row was changed); a second revoke of the same session
returns false without error; a matched row gets revoked_at = some now and
every other row is untouched; and once a row's revoked_at is set, no
sequence of system operations ever clears or changes that row. -/
theorem revoke_conditional_idempotent_monotonic
    (db : SessionStore) (now session_id : Nat) :
    ((RefreshSessionRepository.revoke db now session_id).2 = true ↔
      ∃ s ∈ db, s.id = session_id ∧ s.revoked_at = none)
    ∧ (∀ now2 : Nat, (RefreshSessionRepository.revoke
        (RefreshSessionRepository.revoke db now session_id).1 now2 session_id).2 = false)
    ∧ (∀ j : Nat, ∀ hj : j < db.length,
        ((db.get ⟨j, hj⟩).id = session_id → (db.get ⟨j, hj⟩).revoked_at = none →
          ∃ hj2 : j < (RefreshSessionRepository.revoke db now session_id).1.length,
            (RefreshSessionRepository.revoke db now session_id).1.get ⟨j, hj2⟩ =
              { db.get ⟨j, hj⟩ with revoked_at := some now })
        ∧ (¬((db.get ⟨j, hj⟩).id = session_id ∧ (db.get ⟨j, hj⟩).revoked_at = none) →
          ∃ hj2 : j < (RefreshSessionRepository.revoke db now session_id).1.length,
            (RefreshSessionRepository.revoke db now session_id).1.get ⟨j, hj2⟩ =
              db.get ⟨j, hj⟩))
    ∧ (∀ ops : List Op, ∀ j : Nat, ∀ hj : j < db.length, ∀ t : Nat,
        (db.get ⟨j, hj⟩).revoked_at = some t →
        ∃ hj2 : j < (ops.foldl step db).length,
          (ops.foldl step db).get ⟨j, hj2⟩ = db.get ⟨j, hj⟩) := by
  refine ⟨?_, ?_, ?_, ?_⟩
  · rw [RefreshSessionRepository.revoke, List.any_eq_true]
    simp only [Bool.and_eq_true, beq_iff_eq]
  · intro now2
    rw [RefreshSessionRepository.revoke]
    simp only [RefreshSessionRepository.revoke, List.any_map]
    rw [List.any_eq_false]
    intro s _
    simp only [Function.comp_apply, Bool.and_eq_true, beq_iff_eq, not_and]
    intro hid
    have : (RefreshSessionRepository.revokeRow now session_id s).revoked_at ≠ none := by
      apply revokeRow_revoked_ne_none
      by_cases h : s.id = session_id
      · exact Or.inr h
      · exact absurd (by rwa [revokeRow_id] at hid) h
    simpa using this
  · intro j hj
    constructor
    · intro hid hrev
      simp only [List.get_eq_getElem] at hid hrev
      refine ⟨by simpa [RefreshSessionRepository.revoke] using hj, ?_⟩
      simp only [RefreshSessionRepository.revoke, List.get_eq_getElem, List.getElem_map,
        RefreshSessionRepository.revokeRow]
      rw [if_pos (by simp [hid, hrev])]
    · intro hne
      simp only [List.get_eq_getElem] at hne
      refine ⟨by simpa [RefreshSessionRepository.revoke] using hj, ?_⟩
      simp only [RefreshSessionRepository.revoke, List.get_eq_getElem, List.getElem_map,
        RefreshSessionRepository.revokeRow]
      rw [if_neg (by simpa using hne)]
  · intro ops j hj t hrev
    exact row_frozen_foldl ops hj hrev

theorem revoke_conditional_idempotent_monotonic_witness :
    (RefreshSessionRepository.revoke [demoSession] 5 1).2 = true :=
  (revoke_conditional_idempotent_monotonic [demoSession] 5 1).1.mpr
    ⟨demoSession, by decide, by decide, by decide⟩

/-- C7: any login run failing because no user was found
(InvalidUsername) and any login run failing because the password did not
match (InvalidPassword) are externally indistinguishable: both exceptions
carry the same generic message "Invalid credentials", and the login route
maps both to the same HTTP 401 response with that same detail. -/
theorem login_failures_indistinguishable
    (V1 : PasswordVerifier) (C1 : Crypto) (users1 : UserStore)
    (sessions1 : SessionStore) (now1 : Nat) (login1 password1 : String)
    (sid1 lt1 : Nat)
    (V2 : PasswordVerifier) (C2 : Crypto) (users2 : UserStore)
    (sessions2 : SessionStore) (now2 : Nat) (login2 password2 : String)
    (sid2 lt2 : Nat)
    (h1 : (login_user V1 C1 users1 sessions1 now1 login1 password1 sid1 lt1).2.2 =
      .error (.service .invalidUsername))
    (h2 : (login_user V2 C2 users2 sessions2 now2 login2 password2 sid2 lt2).2.2 =
      .error (.service .invalidPassword)) :
    errorMessage .invalidUsername = errorMessage .invalidPassword
    ∧ login_route (login_user V1 C1 users1 sessions1 now1 login1 password1 sid1 lt1).2.2 =
        login_route (login_user V2 C2 users2 sessions2 now2 login2 password2 sid2 lt2).2.2
    ∧ login_route (login_user V1 C1 users1 sessions1 now1 login1 password1 sid1 lt1).2.2 =
        .unauthorized "Invalid credentials" := by
  refine ⟨rfl, ?_, ?_⟩
  · rw [h1, h2]; rfl
  · rw [h1]; rfl

theorem login_failures_indistinguishable_witness :
    login_route (login_user demoVerifier demoCrypto [] [] 0 "alice" "password1" 1 1).2.2 =
      .unauthorized "Invalid credentials" :=
  (login_failures_indistinguishable demoVerifier demoCrypto [] [] 0 "alice" "password1" 1 1
    demoVerifier demoCrypto
    [{ id := 1, email := "a@b.com", username := "bob", password_hash := "secret" }]
    [] 0 "bob" "wrongpass" 1 1 (by rfl) (by rfl)).2.2

/-- C6: login classifies the login string with the email regex first: an
email-shaped login is looked up by email, an email-unshaped but
username-shaped (alphanumeric/underscore, 3-20 chars) login is looked up
by username, and anything else fails with InvalidUsername without any
store lookup; in either lookup branch, finding no user also fails with
InvalidUsername. -/
theorem login_classification (V : PasswordVerifier) (C : Crypto)
    (users : UserStore) (sessions : SessionStore) (now : Nat)
    (login password : String) (sid lt : Nat) :
    (matchesEmailPattern login = true →
      (login_user V C users sessions now login password sid lt).1 =
        [.lookupEmail login]
      ∧ (UserRepository.get_by_email users login = none →
          (login_user V C users sessions now login password sid lt).2.2 =
            .error (.service .invalidUsername)))
    ∧ (matchesEmailPattern login = false → matchesLoginPattern login = true →
      (login_user V C users sessions now login password sid lt).1 =
        [.lookupUsername login]
      ∧ (UserRepository.get_by_username users login = none →
          (login_user V C users sessions now login password sid lt).2.2 =
            .error (.service .invalidUsername)))
    ∧ (matchesEmailPattern login = false → matchesLoginPattern login = false →
      (login_user V C users sessions now login password sid lt).1 = []
      ∧ (login_user V C users sessions now login password sid lt).2.1 = sessions
      ∧ (login_user V C users sessions now login password sid lt).2.2 =
          .error (.service .invalidUsername)) := by
  refine ⟨?_, ?_, ?_⟩
  · intro he
    unfold login_user
    rw [if_pos he]
    cases hge : UserRepository.get_by_email users login with
    | none => exact ⟨rfl, fun _ => rfl⟩
    | some user =>
      refine ⟨rfl, fun hnone => ?_⟩
      simp at hnone
  · intro he hu
    unfold login_user
    rw [if_neg (by simp [he]), if_pos hu]
    cases hgu : UserRepository.get_by_username users login with
    | none => exact ⟨rfl, fun _ => rfl⟩
    | some user =>
      refine ⟨rfl, fun hnone => ?_⟩
      simp at hnone
  · intro he hu
    unfold login_user
    rw [if_neg (by simp [he]), if_neg (by simp [hu])]
    exact ⟨rfl, rfl, rfl⟩

theorem login_classification_witness :
    (login_user demoVerifier demoCrypto [] [] 0 "a b!" "password1" 1 1).1 = []
    ∧ (login_user demoVerifier demoCrypto [] [] 0 "a b!" "password1" 1 1).2.1 = []
    ∧ (login_user demoVerifier demoCrypto [] [] 0 "a b!" "password1" 1 1).2.2 =
        .error (.service .invalidUsername) :=
  (login_classification demoVerifier demoCrypto [] [] 0 "a b!" "password1" 1 1).2.2
    (by decide) (by decide)

/-- C8 counterexample: a registration input whose email belongs to an
existing user but whose username contains a space fails with
UsernameContainsWhitespace, not EmailAlreadyExists, so the claim's
universal statement fails for such inputs. -/
theorem register_email_check_cex :
    (UserRepository.get_by_email
        [{ id := 1, email := "a@b.com", username := "alice", password_hash := "H" }]
        "a@b.com").isSome = true
    ∧ (register_user
        [{ id := 1, email := "a@b.com", username := "alice", password_hash := "H" }]
        { email := "a@b.com", username := "bob smith", password := "password1" }
        2 "D").2.2 = .error .usernameContainsWhitespace :=
  ⟨by decide, by rfl⟩

/-- C8 (amended): for every registration input whose username passes the
whitespace check, a taken email fails with EmailAlreadyExists (even when
the username is also taken, since the email lookup is first), a free
email with a taken username fails with UsernameAlreadyExists, no user is
created in either failure case, and whenever any store access happens at
all the first one is the email lookup. -/
theorem register_email_before_username (db : UserStore) (payload : RegisterRequest)
    (new_id : Nat) (password_hash : String)
    (hnosp : containsSpace payload.username = false) :
    ((UserRepository.get_by_email db payload.email).isSome = true →
      (register_user db payload new_id password_hash).2.2 = .error .emailAlreadyExists
      ∧ (register_user db payload new_id password_hash).1 = db)
    ∧ (UserRepository.get_by_email db payload.email = none →
      (UserRepository.get_by_username db payload.username).isSome = true →
      (register_user db payload new_id password_hash).2.2 = .error .usernameAlreadyExists
      ∧ (register_user db payload new_id password_hash).1 = db)
    ∧ (∀ ev tr, (register_user db payload new_id password_hash).2.1 = ev :: tr →
        ev = .lookupEmail payload.email) := by
  refine ⟨?_, ?_, ?_⟩
  · intro hsome
    unfold register_user
    rw [if_neg (by simp [hnosp])]
    cases hge : UserRepository.get_by_email db payload.email with
    | none => simp [hge] at hsome
    | some user => exact ⟨rfl, rfl⟩
  · intro hnone hun
    unfold register_user
    rw [if_neg (by simp [hnosp]), hnone]
    cases hgu : UserRepository.get_by_username db payload.username with
    | none => simp [hgu] at hun
    | some user => exact ⟨rfl, rfl⟩
  · intro ev tr h
    unfold register_user at h
    rw [if_neg (by simp [hnosp])] at h
    cases hge : UserRepository.get_by_email db payload.email with
    | some user =>
      rw [hge] at h
      injection h with h1 h2
      exact h1.symm
    | none =>
      rw [hge] at h
      cases hgu : UserRepository.get_by_username db payload.username with
      | some user =>
        rw [hgu] at h
        injection h with h1 h2
        exact h1.symm
      | none =>
        rw [hgu] at h
        cases hc : UserRepository.create db
            { id := new_id, email := payload.email, username := payload.username,
              password_hash := password_hash } with
        | ok db2 =>
          rw [hc] at h
          injection h with h1 h2
          exact h1.symm
        | error v =>
          rw [hc] at h
          cases v with
          | uq_users_email =>
            injection h with h1 h2
            exact h1.symm
          | uq_users_username =>
            injection h with h1 h2
            exact h1.symm

theorem register_email_before_username_witness :
    (register_user
      [{ id := 1, email := "a@b.com", username := "alice", password_hash := "H" }]
      { email := "a@b.com", username := "bob", password := "password1" }
      2 "D").2.2 = .error .emailAlreadyExists :=
  ((register_email_before_username
    [{ id := 1, email := "a@b.com", username := "alice", password_hash := "H" }]
    { email := "a@b.com", username := "bob", password := "password1" }
    2 "D" (by decide)).1 (by decide)).1

/-- C9: the post-validation phase of refresh_tokens never inspects the
boolean result of revoke: its token outputs depend only on the old
session (and the row ids, through the primary-key check of the INSERT),
so even when the conditional revoke matches zero rows (hzero) the refresh
still succeeds with the same tokens and appends a new active session for
the same user. -/
theorem refresh_ignores_revoke_result
    (C : Crypto) (db : SessionStore) (now : Nat) (old_session : RefreshSession)
    (nsid lt : Nat)
    (hzero : (RefreshSessionRepository.revoke db now old_session.id).2 = false)
    (hfresh : ∀ r ∈ db, r.id ≠ nsid)
    (hlt : 0 < lt) :
    (∀ db0 : SessionStore, db0.map (fun r => r.id) = db.map (fun r => r.id) →
      (rotate_session C db0 now old_session nsid lt).2 =
        (rotate_session C db now old_session nsid lt).2)
    ∧ (rotate_session C db now old_session nsid lt).2 =
        .ok (C.accessToken (toString old_session.user_id),
             C.refreshToken (toString old_session.user_id) (toString nsid))
    ∧ (rotate_session C db now old_session nsid lt).1 =
        (RefreshSessionRepository.revoke db now old_session.id).1 ++
          [rotatedSession C now old_session nsid lt]
    ∧ (rotatedSession C now old_session nsid lt).user_id = old_session.user_id
    ∧ (rotatedSession C now old_session nsid lt).id = nsid
    ∧ isActiveAt now (rotatedSession C now old_session nsid lt) = true
    ∧ (∀ raw payload,
        validate_refresh_session C db now raw payload = .ok old_session →
        refresh_tokens C db now raw payload nsid lt =
          rotate_session C db now old_session nsid lt) := by
  have hany : ∀ db0 : SessionStore,
      db0.map (fun r => r.id) = db.map (fun r => r.id) →
      ((RefreshSessionRepository.revoke db0 now old_session.id).1.any
        (fun r => r.id == (rotatedSession C now old_session nsid lt).id)) = false := by
    intro db0 hid
    rw [List.any_eq_false]
    intro r hr
    obtain ⟨r0, hr0, rfl⟩ := List.mem_map.1 hr
    have hmem : r0.id ∈ db.map (fun r => r.id) := hid ▸ List.mem_map_of_mem _ hr0
    obtain ⟨r1, hr1, he⟩ := List.mem_map.1 hmem
    simp only [revokeRow_id, rotatedSession, beq_eq_false_iff_ne, ne_eq]
    intro hcontra
    exact hfresh r1 hr1 (he.trans (by simpa using hcontra))
  have key : ∀ db0 : SessionStore,
      db0.map (fun r => r.id) = db.map (fun r => r.id) →
      rotate_session C db0 now old_session nsid lt =
        ((RefreshSessionRepository.revoke db0 now old_session.id).1 ++
            [rotatedSession C now old_session nsid lt],
         .ok (C.accessToken (toString old_session.user_id),
              C.refreshToken (toString old_session.user_id) (toString nsid))) := by
    intro db0 hid
    unfold rotate_session
    rw [RefreshSessionRepository.create, if_neg (by simp [hany db0 hid])]
  refine ⟨?_, ?_, ?_, rfl, rfl, ?_, ?_⟩
  · intro db0 h0
    rw [key db0 h0, key db rfl]
  · rw [key db rfl]
  · rw [key db rfl]
  · simp only [isActiveAt, rotatedSession]
    simp
    omega
  · intro raw payload hval
    unfold refresh_tokens
    rw [hval]

theorem refresh_ignores_revoke_result_witness :
    (rotate_session demoCrypto
      [{ id := 1, user_id := 7, refresh_token_hash := "#tok", expires_at := 10,
         revoked_at := some 3 }] 5
      { id := 1, user_id := 7, refresh_token_hash := "#tok", expires_at := 10,
        revoked_at := some 3 } 2 30).2 = .ok ("AT:7", "RT:7:2")
    ∧ (RefreshSessionRepository.revoke
        [{ id := 1, user_id := 7, refresh_token_hash := "#tok", expires_at := 10,
           revoked_at := some 3 }] 5 1).2 = false :=
  ⟨(refresh_ignores_revoke_result demoCrypto
      [{ id := 1, user_id := 7, refresh_token_hash := "#tok", expires_at := 10,
         revoked_at := some 3 }] 5
      { id := 1, user_id := 7, refresh_token_hash := "#tok", expires_at := 10,
        revoked_at := some 3 } 2 30 (by decide) (by decide) (by decide)).2.1,
   by decide⟩

/-- C10: registration accepts every username the login pattern accepts
(3-20 alphanumeric/underscore characters fits within 3-64 characters
without a space), but also accepts usernames the login pattern rejects,
such as "ab-cd" (hyphen) and a 21-character name; for such a username
registration succeeds while every subsequent login with it fails with
InvalidUsername before any lookup (empty store trace). -/
theorem register_login_username_gap :
    (∀ u : String, matchesLoginPattern u = true → registerUsernameAccepted u = true)
    ∧ registerUsernameAccepted "ab-cd" = true
    ∧ matchesLoginPattern "ab-cd" = false
    ∧ registerUsernameAccepted "aaaaaaaaaaaaaaaaaaaaa" = true
    ∧ matchesLoginPattern "aaaaaaaaaaaaaaaaaaaaa" = false
    ∧ (register_user []
        { email := "e@x.com", username := "ab-cd", password := "password123" }
        1 "D").2.2 =
        .ok { id := 1, email := "e@x.com", username := "ab-cd", password_hash := "D" }
    ∧ (∀ (V : PasswordVerifier) (C : Crypto) (sessions : SessionStore)
        (now : Nat) (password : String) (sid lt : Nat),
        login_user V C
          [{ id := 1, email := "e@x.com", username := "ab-cd", password_hash := "D" }]
          sessions now "ab-cd" password sid lt =
          ([], sessions, .error (.service .invalidUsername))) := by
  refine ⟨?_, by decide, by decide, by decide, by decide, by rfl, ?_⟩
  · intro u h
    simp only [matchesLoginPattern, Bool.and_eq_true, decide_eq_true_eq,
      List.all_eq_true] at h
    obtain ⟨⟨h3, h20⟩, hall⟩ := h
    simp only [registerUsernameAccepted, Bool.and_eq_true, decide_eq_true_eq]
    refine ⟨⟨h3, by omega⟩, ?_⟩
    rw [Bool.not_eq_true', containsSpace, List.any_eq_false]
    intro c hc heq
    have hsp : c = ' ' := by simpa using heq
    have := hall c hc
    rw [hsp] at this
    simp at this
  · intro V C sessions now password sid lt
    unfold login_user
    rw [if_neg (by decide), if_neg (by decide)]

theorem register_login_username_gap_witness :
    registerUsernameAccepted "alice" = true :=
  register_login_username_gap.1 "alice" (by decide)

/-- C1: strict rotation-on-use.  If the session `s` of refresh token
`raw` is found active at time `now` (hfound), the token payload carries
the owning user (hsub), hashes of distinct live tokens do not collide
(huniqhash, hnewhash, the spec's digest-uniqueness invariant), the fresh
session id is really fresh (hfresh) and primary keys are unique
(huniqid), then refresh succeeds with a new access/refresh token pair,
the old session's revoked_at becomes `some now` (non-null), any later
(now2 ≥ now) refresh with the same token fails with
RefreshSessionNotFound at the lookup step, and no sequence of system
operations ever reverts the old session's revoked_at. -/
theorem rotation_on_use_replay_rejected
    (C : Crypto) (db : SessionStore) (now now2 : Nat) (raw : String)
    (payload : TokenPayload) (s : RefreshSession) (nsid lt : Nat)
    (hfound : RefreshSessionRepository.get_active_by_hash db now (C.hashToken raw) =
      some s)
    (hraw : raw.isEmpty = false)
    (hsub : payload.sub = toString s.user_id)
    (huniqhash : ∀ r ∈ db, r.refresh_token_hash = C.hashToken raw →
      isActiveAt now r = true → r.id = s.id)
    (huniqid : ∀ r ∈ db, r.id = s.id → r = s)
    (hfresh : ∀ r ∈ db, r.id ≠ nsid)
    (hnewhash : C.hashToken (C.refreshToken (toString s.user_id) (toString nsid)) ≠
      C.hashToken raw)
    (hnow2 : now ≤ now2) :
    ∃ db2 : SessionStore,
      refresh_tokens C db now (.str raw) payload nsid lt =
        (db2, .ok (C.accessToken (toString s.user_id),
                   C.refreshToken (toString s.user_id) (toString nsid)))
      ∧ { s with revoked_at := some now } ∈ db2
      ∧ (∀ r ∈ db2, r.id = s.id → r = { s with revoked_at := some now })
      ∧ (∀ (payload2 : TokenPayload) (nsid2 lt2 : Nat),
          refresh_tokens C db2 now2 (.str raw) payload2 nsid2 lt2 =
            (db2, .error (.service .refreshSessionNotFound)))
      ∧ (∀ ops : List Op, ∀ r ∈ ops.foldl step db2, r.id = s.id →
          r.revoked_at = some now) := by
  have hsmem : s ∈ db := List.mem_of_find?_eq_some hfound
  have hpred := List.find?_some hfound
  simp only [Bool.and_eq_true, beq_iff_eq, decide_eq_true_eq] at hpred
  obtain ⟨⟨hshash, hsrev⟩, hsexp⟩ := hpred
  have hsid_ne : s.id ≠ nsid := hfresh s hsmem
  have hrowS : RefreshSessionRepository.revokeRow now s.id s =
      { s with revoked_at := some now } := by
    simp [RefreshSessionRepository.revokeRow, hsrev]
  have hval : validate_refresh_session C db now (.str raw) payload = .ok s := by
    unfold validate_refresh_session
    rw [if_neg (by simp [refreshTokenFalsy, hraw])]
    simp only [normalize_refresh_token]
    rw [hfound]
    dsimp only
    rw [if_neg (by simp [hsub])]
  have hanyf : ((RefreshSessionRepository.revoke db now s.id).1.any
      (fun r => r.id == (rotatedSession C now s nsid lt).id)) = false := by
    rw [List.any_eq_false]
    intro r hr
    obtain ⟨r0, hr0, rfl⟩ := List.mem_map.1 hr
    intro hcontra
    rw [revokeRow_id] at hcontra
    exact hfresh r0 hr0 (by simpa [rotatedSession] using hcontra)
  have hmem2 : { s with revoked_at := some now } ∈
      (RefreshSessionRepository.revoke db now s.id).1 ++
        [rotatedSession C now s nsid lt] :=
    List.mem_append_left _
      (hrowS ▸ List.mem_map_of_mem (RefreshSessionRepository.revokeRow now s.id) hsmem)
  have huniq2 : ∀ r ∈ (RefreshSessionRepository.revoke db now s.id).1 ++
      [rotatedSession C now s nsid lt], r.id = s.id →
      r = { s with revoked_at := some now } := by
    intro r hr hid
    rcases List.mem_append.1 hr with hr | hr
    · obtain ⟨r0, hr0, rfl⟩ := List.mem_map.1 hr
      rw [revokeRow_id] at hid
      rw [huniqid r0 hr0 hid]
      exact hrowS
    · have : r = rotatedSession C now s nsid lt := by simpa using hr
      subst this
      exact absurd hid hsid_ne.symm
  have hlookup2 : RefreshSessionRepository.get_active_by_hash
      ((RefreshSessionRepository.revoke db now s.id).1 ++
        [rotatedSession C now s nsid lt]) now2 (C.hashToken raw) = none := by
    rw [RefreshSessionRepository.get_active_by_hash, List.find?_eq_none]
    intro r hr
    rcases List.mem_append.1 hr with hr | hr
    · obtain ⟨r0, hr0, rfl⟩ := List.mem_map.1 hr
      by_cases hid : r0.id = s.id
      · have hr0s : r0 = s := huniqid r0 hr0 hid
        subst hr0s
        rw [hrowS]
        simp
      · have hrow : RefreshSessionRepository.revokeRow now s.id r0 = r0 := by
          simp [RefreshSessionRepository.revokeRow, hid]
        rw [hrow]
        by_cases hh : r0.refresh_token_hash = C.hashToken raw
        · by_cases hrv : r0.revoked_at = none
          · have hexp : ¬ (now < r0.expires_at) := by
              intro hlt2
              exact hid (huniqhash r0 hr0 hh (by simp [isActiveAt, hrv, hlt2]))
            have hexp2 : ¬ (now2 < r0.expires_at) := by omega
            simp [hh, hrv, hexp2]
          · simp [hh, hrv]
        · simp [hh]
    · have : r = rotatedSession C now s nsid lt := by simpa using hr
      subst this
      simp [rotatedSession, hnewhash]
  have hforever : RevokedForever s.id now
      ((RefreshSessionRepository.revoke db now s.id).1 ++
        [rotatedSession C now s nsid lt]) := by
    refine ⟨⟨{ s with revoked_at := some now }, hmem2, rfl⟩, ?_⟩
    intro r hr hid
    rw [huniq2 r hr hid]
  refine ⟨(RefreshSessionRepository.revoke db now s.id).1 ++
    [rotatedSession C now s nsid lt], ?_, hmem2, huniq2, ?_, ?_⟩
  · unfold refresh_tokens
    rw [hval]
    dsimp only
    unfold rotate_session
    rw [RefreshSessionRepository.create, if_neg (by simp [hanyf])]
  · intro payload2 nsid2 lt2
    unfold refresh_tokens validate_refresh_session
    rw [if_neg (by simp [refreshTokenFalsy, hraw])]
    simp only [normalize_refresh_token]
    rw [hlookup2]
  · intro ops r hr hid
    exact (revokedForever_foldl hforever ops).2 r hr hid

theorem rotation_on_use_replay_rejected_witness :
    ∃ db2 : SessionStore,
      refresh_tokens demoCrypto [demoSession] 5 (.str "tok") { sub := "7" } 2 30 =
        (db2, .ok ("AT:7", "RT:7:2"))
      ∧ { demoSession with revoked_at := some 5 } ∈ db2
      ∧ (∀ r ∈ db2, r.id = demoSession.id →
          r = { demoSession with revoked_at := some 5 })
      ∧ (∀ (payload2 : TokenPayload) (nsid2 lt2 : Nat),
          refresh_tokens demoCrypto db2 6 (.str "tok") payload2 nsid2 lt2 =
            (db2, .error (.service .refreshSessionNotFound)))
      ∧ (∀ ops : List Op, ∀ r ∈ ops.foldl step db2, r.id = demoSession.id →
          r.revoked_at = some 5) :=
  rotation_on_use_replay_rejected demoCrypto [demoSession] 5 6 "tok" { sub := "7" }
    demoSession 2 30 (by decide) (by decide) (by decide)
    (by decide) (by decide) (by decide) (by decide) (by decide)

end Messenger
